import Mathlib

/-!
Verification of pybhspc, a Python binding for the Becker-Hickl SPCM-DLL.

The pure Python modules (`bh_spc/_ini_files.py`, `bh_spc/_dump_state.py`,
`bh_spc/__init__.py`) are embedded directly from their sources.  The Cython
extension module `bh_spc/spcm.pyx` is not present in the source tree (only its
tests and callers are), so the parts of `spcm` that the claims need are
modelled from the specification, as marked in the doc comments below.

Python exceptions are modelled with `Except`; Python `int` is `Int`; Python
`float` values are carried abstractly as rationals (no float arithmetic is
performed anywhere in the embedded code, values are only stored, compared and
read back).
-/

namespace Pybhspc

/-- Python exception kinds raised by the binding layer itself (as opposed to
vendor-signalled `SPCMError`s). -/
inductive PyExc where
  | typeError
  | valueError
  | overflowError
  deriving DecidableEq, Repr

/-- Modelled from the spec: the error-code taxonomy of `bh_spc.spcm`
(`spcm.ErrorEnum`, from the missing `spcm.pyx`); only the members that the
embedded code and the claims mention are included. -/
inductive ErrorEnum where
  | NONE
  | NOT_ACTIVE
  | MOD_NO
  | NO_ACT_MOD
  | FILE_NVALID
  | UNKNOWN
  deriving DecidableEq, Repr

/-- Modelled from the spec: `spcm.SPCMError` (from the missing `spcm.pyx`), the
typed failure carrying the numeric code and decoded enum value whenever a
vendor call returns a negative/error status. -/
structure SPCMError where
  code : Int
  enum : ErrorEnum
  message : String
  deriving DecidableEq, Repr

/-- Rendering of an `SPCMError` as it appears interpolated into an f-string. -/
def SPCMError.text (e : SPCMError) : String :=
  e.message ++ " (SPCM error " ++ toString e.code ++ ")"

/-! ## Error-to-message mapping (claim C1)

Modelled from the spec: `spcm.get_error_string` (from the missing `spcm.pyx`)
maps a numeric return/status code to a descriptive message looked up from a
fixed code table; unknown codes still produce a decodable unknown-error
message; codes outside the representable signed 16-bit range are a distinct
overflow-style failure. -/

/-- Modelled from the spec: the fixed code table of descriptive messages
(vendor-defined; the entries pinned by the tests are code 0 mapping to
"No error" and code -1 mapping to a message mentioning a file). -/
def errorMessageTable : List (Int × String) :=
  [(0, "No error"),
   (-1, "File open error"),
   (-2, "File read error"),
   (-3, "File write error"),
   (-4, "Invalid argument"),
   (-32768, "Unknown SPCM error")]

/-- Modelled from the spec: message produced for in-range codes that have no
entry in the fixed table. -/
def unknownErrorMessage (code : Int) : String :=
  "Unknown SPCM error (code " ++ toString code ++ ")"

/-- Modelled from the spec: `spcm.get_error_string`.  In-range codes (signed
16-bit, matching the C `short` parameter of the vendor function) always
resolve to some message; out-of-range codes fail with `OverflowError` (the
distinct overflow-style failure) before any lookup. -/
def get_error_string (code : Int) : Except PyExc String :=
  if code < -32768 ∨ 32767 < code then
    .error .overflowError
  else
    .ok ((errorMessageTable.lookup code).getD (unknownErrorMessage code))

lemma errorMessageTable_nonempty_messages :
    ∀ p ∈ errorMessageTable, (p.2 : String) ≠ "" := by
  decide

lemma lookup_mem_of_eq_some {α β : Type} [BEq α] [LawfulBEq α]
    {l : List (α × β)} {a : α} {b : β} (h : l.lookup a = some b) :
    (a, b) ∈ l := by
  induction l with
  | nil => simp [List.lookup] at h
  | cons p t ih =>
    rw [List.lookup] at h
    by_cases hab : a == p.1
    · simp [hab] at h
      have hp : (a, b) = p := by
        cases p
        simp_all [eq_of_beq hab]
      rw [hp]
      exact List.mem_cons_self _ _
    · simp [hab] at h
      exact List.mem_cons_of_mem _ (ih h)

/-- Claim C1: for every error code in the representable 16-bit range,
`get_error_string` returns a non-empty string (including the decodable
unknown-error message for codes with no table entry); for every code outside
that range it fails with the distinct overflow-style failure rather than
returning a message. -/
theorem get_error_string_total (code : Int) :
    (-32768 ≤ code ∧ code ≤ 32767 →
      ∃ s, get_error_string code = .ok s ∧ s ≠ "") ∧
    (code < -32768 ∨ 32767 < code →
      get_error_string code = .error PyExc.overflowError) := by
  constructor
  · rintro ⟨hlo, hhi⟩
    have hrange : ¬(code < -32768 ∨ 32767 < code) := by omega
    rw [get_error_string, if_neg hrange]
    refine ⟨(errorMessageTable.lookup code).getD (unknownErrorMessage code), rfl, ?_⟩
    cases hl : errorMessageTable.lookup code with
    | none =>
      simp only [hl, Option.getD_none]
      intro hcontra
      have hd := congrArg String.data hcontra
      rw [unknownErrorMessage] at hd
      simp only [String.data_append] at hd
      exact absurd (List.append_eq_nil.mp (List.append_eq_nil.mp hd).1).1 (by decide)
    | some s =>
      simp only [hl, Option.getD_some]
      exact errorMessageTable_nonempty_messages (code, s) (lookup_mem_of_eq_some hl)
  · intro h
    rw [get_error_string, if_pos h]

/-- Witness for C1 at concrete codes 5 (in range) and 32768 (out of range). -/
theorem get_error_string_total_witness :
    ((-32768 ≤ (5 : Int) ∧ (5 : Int) ≤ 32767) ∧
      ∃ s, get_error_string 5 = .ok s ∧ s ≠ "") ∧
    (((32767 : Int) < 32768) ∧
      get_error_string 32768 = .error PyExc.overflowError) :=
  ⟨⟨by decide, (get_error_string_total 5).1 (by decide)⟩,
   ⟨by decide, (get_error_string_total 32768).2 (Or.inr (by decide))⟩⟩

/-! ## Parameter IDs and Python numeric values (claims C2, C3, C4) -/

/-- The two declared numeric types of SPC parameters (Python `int` and
`float`). -/
inductive PType where
  | int
  | float
  deriving DecidableEq, Repr

/-- A Python numeric value as stored in a parameter field.  Floats are carried
abstractly as rationals: the embedded code only stores, reads back and
compares them. -/
inductive PVal where
  | pint (n : Int)
  | pfloat (q : ℚ)
  deriving DecidableEq, Repr

/-- The Python type of a value. -/
def PVal.ptype : PVal → PType
  | .pint _ => .int
  | .pfloat _ => .float

/-- Modelled from the spec: `spcm.ParID` (from the missing `spcm.pyx`), the
vendor parameter-ID table.  Members are numbered 0 through 27 in declaration
order; the tests pin `CFD_LIMIT_LOW` at value 0 with type `float` and `MODE`
at value 27 with type `int`. -/
inductive ParID where
  | CFD_LIMIT_LOW
  | CFD_LIMIT_HIGH
  | CFD_ZC_LEVEL
  | CFD_HOLDOFF
  | SYNC_ZC_LEVEL
  | SYNC_FREQ_DIV
  | SYNC_HOLDOFF
  | SYNC_THRESHOLD
  | TAC_RANGE
  | TAC_GAIN
  | TAC_OFFSET
  | TAC_LIMIT_LOW
  | TAC_LIMIT_HIGH
  | ADC_RESOLUTION
  | EXT_LATCH_DELAY
  | COLLECT_TIME
  | DISPLAY_TIME
  | REPEAT_TIME
  | STOP_ON_TIME
  | STOP_ON_OVFL
  | DITHER_RANGE
  | COUNT_INCR
  | MEM_BANK
  | DEAD_TIME_COMP
  | SCAN_CONTROL
  | ROUTING_MODE
  | TAC_ENABLE_HOLD
  | MODE
  deriving DecidableEq, Repr

/-- The numeric value of a parameter ID (its position in the vendor table). -/
def ParID.value : ParID → Int
  | .CFD_LIMIT_LOW => 0
  | .CFD_LIMIT_HIGH => 1
  | .CFD_ZC_LEVEL => 2
  | .CFD_HOLDOFF => 3
  | .SYNC_ZC_LEVEL => 4
  | .SYNC_FREQ_DIV => 5
  | .SYNC_HOLDOFF => 6
  | .SYNC_THRESHOLD => 7
  | .TAC_RANGE => 8
  | .TAC_GAIN => 9
  | .TAC_OFFSET => 10
  | .TAC_LIMIT_LOW => 11
  | .TAC_LIMIT_HIGH => 12
  | .ADC_RESOLUTION => 13
  | .EXT_LATCH_DELAY => 14
  | .COLLECT_TIME => 15
  | .DISPLAY_TIME => 16
  | .REPEAT_TIME => 17
  | .STOP_ON_TIME => 18
  | .STOP_ON_OVFL => 19
  | .DITHER_RANGE => 20
  | .COUNT_INCR => 21
  | .MEM_BANK => 22
  | .DEAD_TIME_COMP => 23
  | .SCAN_CONTROL => 24
  | .ROUTING_MODE => 25
  | .TAC_ENABLE_HOLD => 26
  | .MODE => 27

/-- The declared numeric type of each parameter (the `type` attribute of
`spcm.ParID` members), dictated by the vendor parameter-ID table. -/
def ParID.type : ParID → PType
  | .CFD_LIMIT_LOW => .float
  | .CFD_LIMIT_HIGH => .float
  | .CFD_ZC_LEVEL => .float
  | .CFD_HOLDOFF => .float
  | .SYNC_ZC_LEVEL => .float
  | .SYNC_FREQ_DIV => .int
  | .SYNC_HOLDOFF => .float
  | .SYNC_THRESHOLD => .float
  | .TAC_RANGE => .float
  | .TAC_GAIN => .int
  | .TAC_OFFSET => .float
  | .TAC_LIMIT_LOW => .float
  | .TAC_LIMIT_HIGH => .float
  | .ADC_RESOLUTION => .int
  | .EXT_LATCH_DELAY => .int
  | .COLLECT_TIME => .float
  | .DISPLAY_TIME => .float
  | .REPEAT_TIME => .float
  | .STOP_ON_TIME => .int
  | .STOP_ON_OVFL => .int
  | .DITHER_RANGE => .int
  | .COUNT_INCR => .int
  | .MEM_BANK => .int
  | .DEAD_TIME_COMP => .int
  | .SCAN_CONTROL => .int
  | .ROUTING_MODE => .int
  | .TAC_ENABLE_HOLD => .float
  | .MODE => .int

/-- All parameter IDs in declaration (vendor-table) order. -/
def ParID.all : List ParID :=
  [.CFD_LIMIT_LOW, .CFD_LIMIT_HIGH, .CFD_ZC_LEVEL, .CFD_HOLDOFF,
   .SYNC_ZC_LEVEL, .SYNC_FREQ_DIV, .SYNC_HOLDOFF, .SYNC_THRESHOLD,
   .TAC_RANGE, .TAC_GAIN, .TAC_OFFSET, .TAC_LIMIT_LOW, .TAC_LIMIT_HIGH,
   .ADC_RESOLUTION, .EXT_LATCH_DELAY, .COLLECT_TIME, .DISPLAY_TIME,
   .REPEAT_TIME, .STOP_ON_TIME, .STOP_ON_OVFL, .DITHER_RANGE, .COUNT_INCR,
   .MEM_BANK, .DEAD_TIME_COMP, .SCAN_CONTROL, .ROUTING_MODE,
   .TAC_ENABLE_HOLD, .MODE]

lemma ParID.all_nodup : ParID.all.Nodup := by decide

lemma ParID.mem_all : ∀ p : ParID, p ∈ ParID.all := by
  intro p
  cases p <;> decide

/-- The zero value of a given declared type (the default of each field of a
freshly constructed parameter block). -/
def PType.zero : PType → PVal
  | .int => .pint 0
  | .float => .pfloat 0

/-! ## The parameter block `spcm.Data` (claims C4, C9)

Modelled from the spec: `spcm.Data` (from the missing `spcm.pyx`) mirrors the
vendor parameter struct, one scalar field per parameter ID (tests check that
the field names are exactly the lowercased `ParID` names, in order).  It is a
plain value type supporting equality, structural diff and dictionary-style
export. -/

structure Data where
  fields : ParID → PVal

/-- A freshly constructed `spcm.Data()` has every field zero. -/
def Data.mk0 : Data := ⟨fun p => p.type.zero⟩

/-- The field-name-keyed export (`Data.items` and `Data.as_dict`), in vendor
field order. -/
def Data.items (d : Data) : List (ParID × PVal) :=
  ParID.all.map fun p => (p, d.fields p)

/-- Dictionary-style export; same association list as `items`. -/
def Data.as_dict (d : Data) : List (ParID × PVal) := d.items

/-- Structural diff: the fields of `self` that differ from `other`, with the
value from `self`, in vendor field order. -/
def Data.diff_as_dict (self other : Data) : List (ParID × PVal) :=
  (ParID.all.filter fun p => self.fields p ≠ other.fields p).map
    fun p => (p, self.fields p)

lemma filter_eq_singleton {α : Type} {l : List α} {p0 : α} {pred : α → Bool}
    (hn : l.Nodup) (hm : p0 ∈ l) (hp : ∀ a, pred a = true ↔ a = p0) :
    l.filter pred = [p0] := by
  induction l with
  | nil => cases hm
  | cons x t ih =>
    rcases List.mem_cons.mp hm with h | h
    · rw [List.filter_cons_of_pos ((hp x).mpr h.symm)]
      have ht : t.filter pred = [] := by
        rw [List.filter_eq_nil_iff]
        intro a ha hpa
        have hax : x ∈ t := by
          have hax2 : a = x := ((hp a).mp hpa).trans h
          exact hax2 ▸ ha
        exact (List.nodup_cons.mp hn).1 hax
      rw [ht, h]
    · have hx : pred x = false := by
        cases hpx : pred x with
        | false => rfl
        | true => exact absurd (((hp x).mp hpx) ▸ h) (List.nodup_cons.mp hn).1
      rw [List.filter_cons_of_neg (by simp [hx])]
      exact ih (List.nodup_cons.mp hn).2 h

/-- Claim C4: for every two parameter blocks that are identical except in
exactly one field, `Data.diff_as_dict` reports exactly that one field with
its differing value, and no others. -/
theorem diff_as_dict_single_field (d0 d1 : Data) (p0 : ParID)
    (hdiff : d1.fields p0 ≠ d0.fields p0)
    (hsame : ∀ p : ParID, p ≠ p0 → d1.fields p = d0.fields p) :
    d1.diff_as_dict d0 = [(p0, d1.fields p0)] := by
  rw [Data.diff_as_dict]
  have hfilter :
      (ParID.all.filter fun p => d1.fields p ≠ d0.fields p) = [p0] := by
    apply filter_eq_singleton ParID.all_nodup (ParID.mem_all p0)
    intro a
    constructor
    · intro ha
      by_contra hne
      exact (of_decide_eq_true ha) (hsame a hne)
    · intro ha
      subst ha
      exact decide_eq_true hdiff
  rw [hfilter]
  rfl

/-- Witness for C4: two blocks differing only in `sync_freq_div` diff to
exactly that field. -/
theorem diff_as_dict_single_field_witness :
    ((⟨fun p => if p = ParID.SYNC_FREQ_DIV then PVal.pint 2 else p.type.zero⟩ :
        Data).fields ParID.SYNC_FREQ_DIV ≠ Data.mk0.fields ParID.SYNC_FREQ_DIV) ∧
    (⟨fun p => if p = ParID.SYNC_FREQ_DIV then PVal.pint 2 else p.type.zero⟩ :
        Data).diff_as_dict Data.mk0 =
      [(ParID.SYNC_FREQ_DIV, PVal.pint 2)] :=
  ⟨by decide,
   diff_as_dict_single_field Data.mk0
     ⟨fun p => if p = ParID.SYNC_FREQ_DIV then PVal.pint 2 else p.type.zero⟩
     ParID.SYNC_FREQ_DIV (by decide)
     (fun p hp => by simp [Data.mk0, if_neg hp])⟩

/-! ## Module status enums (claims C5, C6, C9, C10)

Modelled from the spec: `spcm.InitStatus`, `spcm.InUseStatus`,
`spcm.ModuleType` and `spcm.DLLOperationMode` (from the missing `spcm.pyx`).
`InitStatus` is the enumeration with sparse and ranged members: every code in
the grouped range -100 to -199 is the single member `XILINX_ERR`. -/

inductive InitStatus where
  | OK
  | NOT_DONE
  | WRONG_EEP_CHKSUM
  | WRONG_MOD_ID
  | HARD_TEST_ERR
  | CANT_OPEN_PCI_CARD
  | MOD_IN_USE
  | XILINX_ERR
  deriving DecidableEq, Repr

/-- The canonical numeric value of each `InitStatus` member (`XILINX_ERR`
stands for the whole grouped range -100 to -199). -/
def InitStatus.value : InitStatus → Int
  | .OK => 0
  | .NOT_DONE => -1
  | .WRONG_EEP_CHKSUM => -2
  | .WRONG_MOD_ID => -3
  | .HARD_TEST_ERR => -4
  | .CANT_OPEN_PCI_CARD => -5
  | .MOD_IN_USE => -6
  | .XILINX_ERR => -100

/-- The descriptive message attached to each `InitStatus` member. -/
def InitStatus.message : InitStatus → String
  | .OK => "Initialized"
  | .NOT_DONE => "Initialization not done"
  | .WRONG_EEP_CHKSUM => "Incorrect EEPROM checksum"
  | .WRONG_MOD_ID => "Incorrect module identification code"
  | .HARD_TEST_ERR => "Hardware test failed"
  | .CANT_OPEN_PCI_CARD => "Cannot open PCI card"
  | .MOD_IN_USE => "Module in use by other application"
  | .XILINX_ERR => "Xilinx initialization error"

/-- The non-grouped known status codes (the values of the members other than
the grouped `XILINX_ERR` range). -/
def knownInitStatusCodes : List Int := [0, -1, -2, -3, -4, -5, -6]

/-- Constructing `spcm.InitStatus` from an integer: the sparse codes map to
their members, the grouped range -100 to -199 maps to `XILINX_ERR`, and
everything else raises `ValueError`. -/
def InitStatus.ofInt (n : Int) : Except PyExc InitStatus :=
  if n = 0 then .ok .OK
  else if n = -1 then .ok .NOT_DONE
  else if n = -2 then .ok .WRONG_EEP_CHKSUM
  else if n = -3 then .ok .WRONG_MOD_ID
  else if n = -4 then .ok .HARD_TEST_ERR
  else if n = -5 then .ok .CANT_OPEN_PCI_CARD
  else if n = -6 then .ok .MOD_IN_USE
  else if -199 ≤ n ∧ n ≤ -100 then .ok .XILINX_ERR
  else .error .valueError

/-- Claim C10: constructing `InitStatus` from an integer maps every value in
the grouped range -100 to -199 to `XILINX_ERR`, maps each known code to its
member with a non-empty message (0 to `OK` with message "Initialized"), and
raises `ValueError` for every integer outside the known codes and the grouped
range. -/
theorem init_status_of_int_spec (n : Int) :
    (-199 ≤ n → n ≤ -100 → InitStatus.ofInt n = .ok InitStatus.XILINX_ERR) ∧
    (InitStatus.ofInt 0 = .ok InitStatus.OK ∧
      InitStatus.OK.message = "Initialized") ∧
    (∀ s : InitStatus, s.message ≠ "") ∧
    (n ∉ knownInitStatusCodes → ¬(-199 ≤ n ∧ n ≤ -100) →
      InitStatus.ofInt n = .error PyExc.valueError) := by
  refine ⟨?_, ⟨rfl, rfl⟩, ?_, ?_⟩
  · intro h1 h2
    rw [InitStatus.ofInt]
    rw [if_neg (by omega), if_neg (by omega), if_neg (by omega),
      if_neg (by omega), if_neg (by omega), if_neg (by omega),
      if_neg (by omega), if_pos ⟨h1, h2⟩]
  · intro s
    cases s <;> decide
  · intro hmem hrange
    simp only [knownInitStatusCodes, List.mem_cons, List.not_mem_nil,
      or_false, not_or] at hmem
    obtain ⟨h0, h1, h2, h3, h4, h5, h6⟩ := hmem
    rw [InitStatus.ofInt, if_neg h0, if_neg h1, if_neg h2, if_neg h3,
      if_neg h4, if_neg h5, if_neg h6, if_neg hrange]

/-- Witness for C10 at the concrete codes -142 (grouped range), 0 (known) and
1, -200 (unknown, ValueError). -/
theorem init_status_of_int_spec_witness :
    InitStatus.ofInt (-142) = .ok InitStatus.XILINX_ERR ∧
    InitStatus.ofInt 0 = .ok InitStatus.OK ∧
    InitStatus.ofInt 1 = .error PyExc.valueError ∧
    InitStatus.ofInt (-200) = .error PyExc.valueError :=
  ⟨(init_status_of_int_spec (-142)).1 (by decide) (by decide),
   ((init_status_of_int_spec 0).2.1).1,
   (init_status_of_int_spec 1).2.2.2 (by decide) (by decide),
   (init_status_of_int_spec (-200)).2.2.2 (by decide) (by decide)⟩

/-- Modelled from the spec: `spcm.InUseStatus` (from the missing
`spcm.pyx`). -/
inductive InUseStatus where
  | NOT_IN_USE
  | IN_USE_HERE
  | IN_USE_OTHER
  deriving DecidableEq, Repr

/-- Modelled from the spec: `spcm.ModuleType` (from the missing `spcm.pyx`);
only the members the tests mention are included. -/
inductive ModuleType where
  | UNKNOWN
  | SPC_150
  | SPC_180N
  deriving DecidableEq, Repr

/-- Modelled from the spec: `spcm.DLLOperationMode` (from the missing
`spcm.pyx`): 0 for hardware, special constants for simulation. -/
inductive DLLOperationMode where
  | HARDWARE
  | SIMULATE_SPC_150
  | SIMULATE_SPC_180N
  deriving DecidableEq, Repr

/-! ## Module info and other plain data records (claims C5, C6, C9) -/

/-- Modelled from the spec: `spcm.ModInfo` (from the missing `spcm.pyx`), the
module info record: type, bus/slot location, in-use and init-status
enumerations. -/
structure ModInfo where
  module_type : ModuleType
  bus_number : Int
  slot_number : Int
  in_use : InUseStatus
  init : InitStatus
  deriving DecidableEq, Repr

/-- Modelled from the spec: `spcm.AdjustPara` (from the missing `spcm.pyx`),
the nested adjustment parameters of the EEPROM record. -/
structure AdjustPara where
  sync_div : Int
  vrt1 : Int
  vrt2 : Int
  vrt3 : Int
  deriving DecidableEq, Repr

/-- Modelled from the spec: `spcm.EEPData` (from the missing `spcm.pyx`), the
EEPROM/calibration record: serial number, date, nested adjustment
parameters. -/
structure EEPData where
  module_type : String
  serial_no : String
  date : String
  adj_para : AdjustPara
  deriving DecidableEq, Repr

/-- Modelled from the spec: `spcm.RateValues` (from the missing `spcm.pyx`),
the rate-counter snapshot. -/
structure RateValues where
  sync_rate : ℚ
  cfd_rate : ℚ
  tac_rate : ℚ
  adc_rate : ℚ
  deriving DecidableEq, Repr

/-- Shallow copy of a parameter block (`copy.copy`): a new record with the
same field values. -/
def Data.copy (d : Data) : Data := ⟨d.fields⟩

/-- Deep copy of a parameter block (`copy.deepcopy`); the fields are scalars,
so it rebuilds the same field values. -/
def Data.deepcopy (d : Data) : Data := ⟨d.fields⟩

/-- Shallow copy of a module info record: field-by-field rebuild. -/
def ModInfo.copy (m : ModInfo) : ModInfo :=
  ⟨m.module_type, m.bus_number, m.slot_number, m.in_use, m.init⟩

/-- Shallow copy of an EEPROM record: field-by-field rebuild. -/
def EEPData.copy (e : EEPData) : EEPData :=
  ⟨e.module_type, e.serial_no, e.date, e.adj_para⟩

/-- Deep copy of an EEPROM record: also rebuilds the nested adjustment
parameters. -/
def EEPData.deepcopy (e : EEPData) : EEPData :=
  ⟨e.module_type, e.serial_no, e.date,
   ⟨e.adj_para.sync_div, e.adj_para.vrt1, e.adj_para.vrt2, e.adj_para.vrt3⟩⟩

/-- Shallow copy of a rate snapshot: field-by-field rebuild. -/
def RateValues.copy (r : RateValues) : RateValues :=
  ⟨r.sync_rate, r.cfd_rate, r.tac_rate, r.adc_rate⟩

/-- Claim C9: the data records are plain value types: two instances are equal
exactly when all their field values are equal, and a copy (shallow or deep)
of an instance has the same field values as the original. -/
theorem value_type_semantics :
    (∀ d0 d1 : Data, d0 = d1 ↔ ∀ p : ParID, d0.fields p = d1.fields p) ∧
    (∀ m0 m1 : ModInfo, m0 = m1 ↔
      (m0.module_type = m1.module_type ∧ m0.bus_number = m1.bus_number ∧
       m0.slot_number = m1.slot_number ∧ m0.in_use = m1.in_use ∧
       m0.init = m1.init)) ∧
    (∀ e0 e1 : EEPData, e0 = e1 ↔
      (e0.module_type = e1.module_type ∧ e0.serial_no = e1.serial_no ∧
       e0.date = e1.date ∧ e0.adj_para = e1.adj_para)) ∧
    (∀ r0 r1 : RateValues, r0 = r1 ↔
      (r0.sync_rate = r1.sync_rate ∧ r0.cfd_rate = r1.cfd_rate ∧
       r0.tac_rate = r1.tac_rate ∧ r0.adc_rate = r1.adc_rate)) ∧
    (∀ d : Data, d.copy = d ∧ d.deepcopy = d) ∧
    (∀ m : ModInfo, m.copy = m) ∧
    (∀ e : EEPData, e.copy = e ∧ e.deepcopy = e) ∧
    (∀ r : RateValues, r.copy = r) := by
  refine ⟨?_, ?_, ?_, ?_, ?_, ?_, ?_, ?_⟩
  · intro d0 d1
    constructor
    · intro h p
      rw [h]
    · intro h
      cases d0
      cases d1
      simp only [Data.mk.injEq]
      exact funext h
  · intro m0 m1
    cases m0
    cases m1
    simp [ModInfo.mk.injEq]
  · intro e0 e1
    cases e0
    cases e1
    simp [EEPData.mk.injEq]
  · intro r0 r1
    cases r0
    cases r1
    simp [RateValues.mk.injEq]
  · intro d
    exact ⟨rfl, rfl⟩
  · intro m
    rfl
  · intro e
    exact ⟨rfl, rfl⟩
  · intro r
    rfl

/-! ## The vendor-owned mutable state and `spcm` operations
(claims C2, C3, C6)

Modelled from the spec: the vendor library owns all mutable device/simulation
state (per-module init status, in-use status, parameter blocks, the DLL
operation mode); the binding performs synchronous calls against that state.
There are 8 SPC modules, addressed by a small integer index. -/

structure SpcmState where
  mode : DLLOperationMode
  in_use : Fin 8 → InUseStatus
  init : Fin 8 → InitStatus
  params : Fin 8 → Data

/-- An error raised by a binding operation: either a Python-level failure
(raised by the binding before any vendor call) or a vendor-signalled
`SPCMError`. -/
inductive BindingError where
  | py (e : PyExc)
  | spcm (e : SPCMError)
  deriving DecidableEq, Repr

/-- The vendor error for an invalid module number. -/
def modNoError : SPCMError := ⟨-9, .MOD_NO, "Invalid module number"⟩

/-- The distinct vendor error for a mode-set that leaves no active module. -/
def noActModError : SPCMError := ⟨-8, .NO_ACT_MOD, "No active SPC modules"⟩

/-- The vendor error for a module that is not present/active. -/
def notActiveError : SPCMError := ⟨-31, .NOT_ACTIVE, "Module not active"⟩

/-- The module type that the simulator reports in a given DLL operation
mode. -/
def DLLOperationMode.moduleType : DLLOperationMode → ModuleType
  | .HARDWARE => .UNKNOWN
  | .SIMULATE_SPC_150 => .SPC_150
  | .SIMULATE_SPC_180N => .SPC_180N

/-- Modelled from the spec: `spcm.set_mode` (from the missing `spcm.pyx`).
The enable list is padded with `False` to the 8 module slots.  Disabling all
modules is rejected with the distinct no-active-module failure; otherwise the
mode is set and each module becomes initialized/in-use exactly when
enabled. -/
def set_mode (mode : DLLOperationMode) (_force_use : Bool) (use : List Bool)
    (s : SpcmState) : Except SPCMError SpcmState :=
  if ∀ i : Fin 8, use.getD i.val false = false then
    .error noActModError
  else
    .ok
      { mode := mode,
        in_use := fun i =>
          if use.getD i.val false then .IN_USE_HERE else .NOT_IN_USE,
        init := fun i =>
          if use.getD i.val false then .OK else .NOT_DONE,
        params := s.params }

/-- Modelled from the spec: `spcm.get_init_status` (from the missing
`spcm.pyx`): reads the init status of one module; invalid module numbers are
a vendor `MOD_NO` failure. -/
def get_init_status (mod_no : Nat) (s : SpcmState) :
    Except SPCMError InitStatus :=
  if h : mod_no < 8 then .ok (s.init ⟨mod_no, h⟩) else .error modNoError

/-- Modelled from the spec: `spcm.get_module_info` (from the missing
`spcm.pyx`): reads the module info record of one module. -/
def get_module_info (mod_no : Nat) (s : SpcmState) :
    Except SPCMError ModInfo :=
  if h : mod_no < 8 then
    .ok ⟨s.mode.moduleType, 0, 0, s.in_use ⟨mod_no, h⟩, s.init ⟨mod_no, h⟩⟩
  else
    .error modNoError

/-- Modelled from the spec: `spcm.set_parameter` (from the missing
`spcm.pyx`).  The value must be of the declared type of the parameter ID;
a wrong-typed value raises `TypeError` before the vendor call is made, so
the state is returned unchanged.  The result pairs the Python-level outcome
with the (possibly updated) vendor state. -/
def set_parameter (mod_no : Nat) (pid : ParID) (v : PVal) (s : SpcmState) :
    Except BindingError Unit × SpcmState :=
  if v.ptype ≠ pid.type then
    (.error (.py .typeError), s)
  else if h : mod_no < 8 then
    (.ok (),
     { s with
        params := fun j =>
          if j = ⟨mod_no, h⟩ then
            ⟨fun q => if q = pid then v else (s.params j).fields q⟩
          else s.params j })
  else
    (.error (.spcm modNoError), s)

/-- Modelled from the spec: `spcm.get_parameter` (from the missing
`spcm.pyx`): reads back one parameter of the declared type. -/
def get_parameter (mod_no : Nat) (pid : ParID) (s : SpcmState) :
    Except BindingError PVal :=
  if h : mod_no < 8 then .ok ((s.params ⟨mod_no, h⟩).fields pid)
  else .error (.spcm modNoError)

/-- An arbitrary concrete vendor state (the state after initializing the
SPC-150 simulator with all modules enabled), used to instantiate the
state-quantified theorems. -/
def initialState : SpcmState :=
  ⟨.SIMULATE_SPC_150, fun _ => .IN_USE_HERE, fun _ => .OK, fun _ => Data.mk0⟩

/-- Claim C2: each parameter ID has a fixed declared numeric type (int or
float), and `set_parameter` with a value of the wrong type fails with
`TypeError` before any vendor call is made, returning the vendor state
unchanged rather than silently coercing. -/
theorem set_parameter_type_check (mod_no : Nat) (pid : ParID) (v : PVal)
    (s : SpcmState) :
    (pid.type = PType.int ∨ pid.type = PType.float) ∧
    (v.ptype ≠ pid.type →
      set_parameter mod_no pid v s =
        (.error (BindingError.py PyExc.typeError), s)) := by
  constructor
  · cases hp : pid.type
    · exact Or.inl rfl
    · exact Or.inr rfl
  · intro h
    rw [set_parameter, if_pos h]

/-- Witness for C2: setting the int-typed `MODE` with a float value fails
with `TypeError` and leaves the state unchanged. -/
theorem set_parameter_type_check_witness :
    (PVal.pfloat 1).ptype ≠ ParID.MODE.type ∧
    set_parameter 0 ParID.MODE (PVal.pfloat 1) initialState =
      (.error (BindingError.py PyExc.typeError), initialState) :=
  ⟨by decide,
   (set_parameter_type_check 0 ParID.MODE (PVal.pfloat 1) initialState).2
     (by decide)⟩

/-- Claim C3: writing a value of the declared type with `set_parameter` and
reading the same parameter back with `get_parameter` yields the value that
was written. -/
theorem set_get_parameter_round_trip (mod_no : Nat) (pid : ParID) (v : PVal)
    (s : SpcmState) (htype : v.ptype = pid.type) (hmod : mod_no < 8) :
    ∃ s', set_parameter mod_no pid v s = (.ok (), s') ∧
      get_parameter mod_no pid s' = .ok v := by
  rw [set_parameter, if_neg (fun hne => hne htype), dif_pos hmod]
  refine ⟨_, rfl, ?_⟩
  rw [get_parameter, dif_pos hmod]
  simp

/-- Witness for C3 at module 0 and the float-typed `CFD_LIMIT_LOW`. -/
theorem set_get_parameter_round_trip_witness :
    ((PVal.pfloat (-10)).ptype = ParID.CFD_LIMIT_LOW.type ∧ (0 : Nat) < 8) ∧
    ∃ s', set_parameter 0 ParID.CFD_LIMIT_LOW (PVal.pfloat (-10))
        initialState = (.ok (), s') ∧
      get_parameter 0 ParID.CFD_LIMIT_LOW s' = .ok (PVal.pfloat (-10)) :=
  ⟨⟨by decide, by decide⟩,
   set_get_parameter_round_trip 0 ParID.CFD_LIMIT_LOW (PVal.pfloat (-10))
     initialState (by decide) (by decide)⟩

/-- Claim C6: a mode-set whose enable list disables every module fails with
the distinct no-active-module error (`ErrorEnum.NO_ACT_MOD`); one that
enables at least one module succeeds, after which each enabled module reads
back as initialized (`OK`, in use) and each disabled module as not done (not
in use). -/
theorem set_mode_enable_semantics (m : DLLOperationMode) (f : Bool)
    (use : List Bool) (s : SpcmState) :
    ((∀ i : Fin 8, use.getD i.val false = false) →
      set_mode m f use s = .error noActModError ∧
      noActModError.enum = ErrorEnum.NO_ACT_MOD) ∧
    (∀ i0 : Fin 8, use.getD i0.val false = true →
      ∃ s', set_mode m f use s = .ok s' ∧
        ∀ i : Fin 8,
          get_init_status i.val s' =
            .ok (if use.getD i.val false then InitStatus.OK
              else InitStatus.NOT_DONE) ∧
          (get_module_info i.val s').map (fun info => info.in_use) =
            .ok (if use.getD i.val false then InUseStatus.IN_USE_HERE
              else InUseStatus.NOT_IN_USE)) := by
  constructor
  · intro h
    rw [set_mode, if_pos h]
    exact ⟨rfl, rfl⟩
  · intro i0 h0
    have hne : ¬∀ i : Fin 8, use.getD i.val false = false := by
      intro hall
      have := hall i0
      rw [h0] at this
      exact Bool.noConfusion this
    rw [set_mode, if_neg hne]
    refine ⟨_, rfl, fun i => ⟨?_, ?_⟩⟩
    · rw [get_init_status, dif_pos i.isLt]
    · rw [get_module_info, dif_pos i.isLt]
      rfl

/-- Witness for C6: the empty enable list is rejected with `NO_ACT_MOD`;
enabling only module 0 succeeds with module 0 `OK`/in-use and module 1
`NOT_DONE`/not-in-use. -/
theorem set_mode_enable_semantics_witness :
    ((∀ i : Fin 8, ([] : List Bool).getD i.val false = false) ∧
      set_mode DLLOperationMode.SIMULATE_SPC_150 false [] initialState =
        .error noActModError ∧
      noActModError.enum = ErrorEnum.NO_ACT_MOD) ∧
    (([true] : List Bool).getD (0 : Fin 8).val false = true ∧
      ∃ s', set_mode DLLOperationMode.SIMULATE_SPC_180N false [true]
          initialState = .ok s' ∧
        ∀ i : Fin 8,
          get_init_status i.val s' =
            .ok (if ([true] : List Bool).getD i.val false then InitStatus.OK
              else InitStatus.NOT_DONE) ∧
          (get_module_info i.val s').map (fun info => info.in_use) =
            .ok (if ([true] : List Bool).getD i.val false then
              InUseStatus.IN_USE_HERE else InUseStatus.NOT_IN_USE)) :=
  ⟨⟨by decide,
    (set_mode_enable_semantics DLLOperationMode.SIMULATE_SPC_150 false []
      initialState).1 (by decide)⟩,
   ⟨by decide,
    (set_mode_enable_semantics DLLOperationMode.SIMULATE_SPC_180N false
      [true] initialState).2 0 (by decide)⟩⟩

/-! ## Configuration text helpers (claims C7, C8)

Embedded from `src/bh_spc/_ini_files.py` and `src/bh_spc/__init__.py`; this
code is present in the source tree. -/

/-- Embedded from `_ini_files.py` (`minimal_spcm_ini`): the minimal .ini text
for `spcm.init`.  In the source a `spcm.DLLOperationMode` argument is first
replaced by its integer value, so the embedding takes the integer mode. -/
def minimal_spcm_ini (mode : Int) : String :=
  "; SPCM\n[spc_base]\nsimulation = " ++ toString mode ++ "\n[spc_module]\n"

/-- Embedded from `__init__.py` (`minimal_spcm_ini`): the older variant of the
same helper, without the `[spc_module]` section heading. -/
def init_minimal_spcm_ini (mode : Int) : String :=
  "; SPCM\n[spc_base]\nsimulation = " ++ toString mode ++ "\n"

/-- Claim C7: for every mode value, the configuration text has as its first
line the comment consisting of the fixed marker token ("; SPCM") and contains
the line setting the simulation flag to that mode; in particular with mode
180 the text begins with the marker and contains "simulation = 180".  Both
variants of `minimal_spcm_ini` (in `_ini_files.py` and `__init__.py`) are
covered. -/
theorem minimal_spcm_ini_marker_and_mode (mode : Int) :
    (∃ r, minimal_spcm_ini mode = "; SPCM\n" ++ r) ∧
    (∃ a b, minimal_spcm_ini mode =
      a ++ ("simulation = " ++ toString mode) ++ b) ∧
    (∃ r, init_minimal_spcm_ini mode = "; SPCM\n" ++ r) ∧
    (∃ a b, init_minimal_spcm_ini mode =
      a ++ ("simulation = " ++ toString mode) ++ b) ∧
    ("; SPCM".data.isPrefixOf (minimal_spcm_ini 180).data = true) ∧
    ("simulation = 180".data.IsInfix (minimal_spcm_ini 180).data) := by
  refine ⟨?_, ?_, ?_, ?_, by decide, by decide⟩
  · refine ⟨"[spc_base]\nsimulation = " ++ toString mode ++
      "\n[spc_module]\n", ?_⟩
    rw [minimal_spcm_ini, ← String.append_assoc, ← String.append_assoc]
    rfl
  · refine ⟨"; SPCM\n[spc_base]\n", "\n[spc_module]\n", ?_⟩
    rw [minimal_spcm_ini, ← String.append_assoc]
    rfl
  · refine ⟨"[spc_base]\nsimulation = " ++ toString mode ++ "\n", ?_⟩
    rw [init_minimal_spcm_ini, ← String.append_assoc, ← String.append_assoc]
    rfl
  · refine ⟨"; SPCM\n[spc_base]\n", "\n", ?_⟩
    rw [init_minimal_spcm_ini, ← String.append_assoc]
    rfl

/-! ## Scoped temporary .ini file (claim C8)

The file system is modelled as a map from path names to file contents; the
fresh temporary directory name that `tempfile.TemporaryDirectory` generates
is a parameter of the embedding, and path joining uses "/" abstractly. -/

/-- A file-system snapshot: path name to file content. -/
def FS : Type := String → Option String

/-- Writing a file (creating or overwriting). -/
def FS.write (fs : FS) (path content : String) : FS :=
  fun p => if p = path then some content else fs p

/-- Removing a directory tree: every path under the directory disappears
(the cleanup of `tempfile.TemporaryDirectory`). -/
def FS.removeTree (fs : FS) (dir : String) : FS :=
  fun p => if dir.data.isPrefixOf p.data then none else fs p

/-- Embedded from `_ini_files.py` (`ini_file`): create a temporary directory,
write the given text to `pybhspc.ini` inside it, run the body with the path,
and remove the temporary directory when the scope exits.  The body returns
`Except` (a value for a normal exit, an exception for an exceptional exit);
the cleanup runs in either case, as the nested `with` blocks guarantee. -/
def ini_file {ε α : Type} (dirname text : String) (fs : FS)
    (body : String → FS → Except ε α × FS) : Except ε α × FS :=
  let ininame := dirname ++ "/pybhspc.ini"
  let r := body ininame (fs.write ininame text)
  (r.1, r.2.removeTree dirname)

/-- Claim C8: for every text, within the scope of `ini_file` the yielded path
names a file whose content is exactly the given text (the body is run on
exactly that path and that file system), and after the scope exits, normally
or by exception, the file no longer exists. -/
theorem ini_file_scoped_content_and_cleanup {ε α : Type}
    (dirname text : String) (fs : FS)
    (body : String → FS → Except ε α × FS) :
    (fs.write (dirname ++ "/pybhspc.ini") text) (dirname ++ "/pybhspc.ini")
        = some text ∧
    (ini_file dirname text fs body).1 =
      (body (dirname ++ "/pybhspc.ini")
        (fs.write (dirname ++ "/pybhspc.ini") text)).1 ∧
    (ini_file dirname text fs body).2 (dirname ++ "/pybhspc.ini") = none := by
  refine ⟨?_, rfl, ?_⟩
  · rw [FS.write, if_pos rfl]
  · show FS.removeTree _ dirname _ = none
    rw [FS.removeTree]
    have hpre : dirname.data.isPrefixOf
        (dirname ++ "/pybhspc.ini").data = true := by
      rw [String.data_append]
      exact List.isPrefixOf_iff_prefix.mpr (List.prefix_append _ _)
    rw [if_pos hpre]

/-! ## Diagnostic dump (claim C5)

Embedded from `src/bh_spc/_dump_state.py`; this code is present in the
source tree.  The `spcm` calls that one dump performs are collected in an
`Oracle` record (one outcome per query, as the source issues each query once
per module); printing is modelled as returning the list of printed lines.
Two simplifications of presentation only: Python `repr` quoting of strings is
not reproduced, and all output goes to a single stream (the source sends
three of the helper blocks to standard output instead of the `file`
argument). -/

/-- The numeric value of each `InUseStatus` member. -/
def InUseStatus.value : InUseStatus → Int
  | .NOT_IN_USE => 0
  | .IN_USE_HERE => 1
  | .IN_USE_OTHER => -1

/-- Rendering of a `ModuleType` (its `repr` in the source). -/
def ModuleType.render : ModuleType → String
  | .UNKNOWN => "<ModuleType.UNKNOWN: 0>"
  | .SPC_150 => "<ModuleType.SPC_150: 150>"
  | .SPC_180N => "<ModuleType.SPC_180N: 180>"

/-- Rendering of an `InitStatus` (its `repr` in the source). -/
def InitStatus.render (s : InitStatus) : String :=
  "<InitStatus: " ++ toString s.value ++ ">"

/-- Rendering of an `InUseStatus` (its `repr` in the source). -/
def InUseStatus.render (s : InUseStatus) : String :=
  "<InUseStatus: " ++ toString s.value ++ ">"

/-- Rendering of a `DLLOperationMode` (its `repr` in the source). -/
def DLLOperationMode.render : DLLOperationMode → String
  | .HARDWARE => "<DLLOperationMode.HARDWARE: 0>"
  | .SIMULATE_SPC_150 => "<DLLOperationMode.SIMULATE_SPC_150: 150>"
  | .SIMULATE_SPC_180N => "<DLLOperationMode.SIMULATE_SPC_180N: 180>"

/-- The lowercased field name of each parameter ID (the field names of
`spcm.Data` are exactly the lowercased `ParID` member names). -/
def ParID.fieldName : ParID → String
  | .CFD_LIMIT_LOW => "cfd_limit_low"
  | .CFD_LIMIT_HIGH => "cfd_limit_high"
  | .CFD_ZC_LEVEL => "cfd_zc_level"
  | .CFD_HOLDOFF => "cfd_holdoff"
  | .SYNC_ZC_LEVEL => "sync_zc_level"
  | .SYNC_FREQ_DIV => "sync_freq_div"
  | .SYNC_HOLDOFF => "sync_holdoff"
  | .SYNC_THRESHOLD => "sync_threshold"
  | .TAC_RANGE => "tac_range"
  | .TAC_GAIN => "tac_gain"
  | .TAC_OFFSET => "tac_offset"
  | .TAC_LIMIT_LOW => "tac_limit_low"
  | .TAC_LIMIT_HIGH => "tac_limit_high"
  | .ADC_RESOLUTION => "adc_resolution"
  | .EXT_LATCH_DELAY => "ext_latch_delay"
  | .COLLECT_TIME => "collect_time"
  | .DISPLAY_TIME => "display_time"
  | .REPEAT_TIME => "repeat_time"
  | .STOP_ON_TIME => "stop_on_time"
  | .STOP_ON_OVFL => "stop_on_ovfl"
  | .DITHER_RANGE => "dither_range"
  | .COUNT_INCR => "count_incr"
  | .MEM_BANK => "mem_bank"
  | .DEAD_TIME_COMP => "dead_time_comp"
  | .SCAN_CONTROL => "scan_control"
  | .ROUTING_MODE => "routing_mode"
  | .TAC_ENABLE_HOLD => "tac_enable_hold"
  | .MODE => "mode"

/-- Rendering of a stored parameter value. -/
def PVal.render : PVal → String
  | .pint n => toString n
  | .pfloat q => toString q

/-- The space-joined `k=v` text of all parameters (the `params` string of
`_dump_parameters`). -/
def paramsText (d : Data) : String :=
  String.intercalate " "
    (d.items.map (fun kv => kv.1.fieldName ++ "=" ++ kv.2.render))

/-- Modelled from the spec: the Python standard library call
`textwrap.wrap(params, width=79, ...)` used by `_dump_parameters` (the
stdlib is outside this repository); modelled as producing a single line with
the four-space indent, since line breaking is presentation only. -/
def textwrap_wrap (params : String) : List String :=
  ["    " ++ params]

/-- The per-module query outcomes one diagnostic dump observes (each `spcm`
query is issued once per module by the source). -/
structure Oracle where
  test_id : Except SPCMError ModuleType
  get_init_status : Except SPCMError InitStatus
  get_module_info : Except SPCMError ModInfo
  get_eeprom_data : Except SPCMError EEPData
  get_version : Except SPCMError String
  test_state : Except SPCMError Int
  get_sync_state : Except SPCMError Int
  get_parameters : Except SPCMError Data

/-- The line printed when `test_id` fails with an error other than
`NOT_ACTIVE`. -/
def testIdFailLine (mod_no : Nat) (e : SPCMError) : String :=
  "Module " ++ toString mod_no ++ ": test_id() failed: " ++ e.text

/-- The header line printed after a successful `test_id`. -/
def headerLine (mod_no : Nat) (mt : ModuleType) : String :=
  "Module " ++ toString mod_no ++ ": " ++ mt.render

/-- The `init_status` local of `dump_module_state`: the status on success, or
the inline failure text (the source stores the failure string in the same
variable). -/
def initStatusOf (o : Oracle) : Sum InitStatus String :=
  match o.get_init_status with
  | .ok st => .inl st
  | .error e => .inr ("get_init_status() failed: " ++ e.text)

/-- Rendering of the `init_status` local when printed. -/
def renderInitStatusOrError : Sum InitStatus String → String
  | .inl st => st.render
  | .inr msg => msg

/-- Comparison of the `init_status` local with `ModInfo.init` (a stored
failure string never equals an `InitStatus`). -/
def initStatusEq : Sum InitStatus String → InitStatus → Bool
  | .inl st, t => st == t
  | .inr _, _ => false

/-- The module-info block of `dump_module_state`. -/
def infoLines (o : Oracle) (module_type : ModuleType) : List String :=
  match o.get_module_info with
  | .error e => ["  get_module_info() failed: " ++ e.text]
  | .ok info =>
    (if info.module_type ≠ module_type then
      ["  ModInfo.module_type: " ++ info.module_type.render]
     else []) ++
    ["  PCI bus/slot:        " ++ toString info.bus_number ++ ", " ++
       toString info.slot_number,
     "  ModInfo.in_use:      " ++ info.in_use.render] ++
    (if initStatusEq (initStatusOf o) info.init = false then
      ["  ModInfo.init_status: " ++ info.init.render]
     else [])

/-- The lines printed by `_dump_eeprom_data`. -/
def eepLines (o : Oracle) : List String :=
  match o.get_eeprom_data with
  | .error e => ["  get_eeprom_data() failed: " ++ e.text]
  | .ok d =>
    ["  EEPData.module_type: " ++ d.module_type,
     "  EEPData.serial_no:   " ++ d.serial_no,
     "  EEPData.date:        " ++ d.date]

/-- The lines printed by `_dump_fpga_version`. -/
def verLines (o : Oracle) : List String :=
  match o.get_version with
  | .error e => ["  get_version() failed: " ++ e.text]
  | .ok v => ["  FPGA Version:        " ++ v]

/-- The lines printed by `_dump_measurement_state`. -/
def stateLines (o : Oracle) : List String :=
  match o.test_state with
  | .error e => ["  test_state() failed: " ++ e.text]
  | .ok st => ["  State:               " ++ toString st]

/-- The lines printed by `_dump_sync_state`. -/
def syncLines (o : Oracle) : List String :=
  match o.get_sync_state with
  | .error e => ["  get_sync_state() failed: " ++ e.text]
  | .ok st => ["  Sync state:          " ++ toString st]

/-- The lines printed by `_dump_parameters`. -/
def paramLines (o : Oracle) : List String :=
  match o.get_parameters with
  | .error e => ["  get_parameters() failed: " ++ e.text]
  | .ok d => "  Parameters:" :: textwrap_wrap (paramsText d)

/-- Embedded from `_dump_state.py` (`dump_module_state`): if `test_id` fails
with `NOT_ACTIVE` the failure is escalated (re-raised); any other `test_id`
failure is printed and ends this dump; after identification succeeds, every
remaining query is guarded and a failure is reported inline without aborting
the rest. -/
def dump_module_state (o : Oracle) (mod_no : Nat) :
    Except SPCMError (List String) :=
  match o.test_id with
  | .error e =>
    if e.enum = ErrorEnum.NOT_ACTIVE then .error e
    else .ok [testIdFailLine mod_no e]
  | .ok module_type =>
    .ok (headerLine mod_no module_type ::
      ("  " ++ renderInitStatusOrError (initStatusOf o)) ::
      infoLines o module_type ++ eepLines o ++ verLines o ++
      stateLines o ++ syncLines o ++ paramLines o)

/-- The line `dump_state` prints when one module dump raises. -/
def notActiveLine (mod_no : Nat) : String :=
  "Module " ++ toString mod_no ++ " is not active"

/-- One module entry of `dump_state`: the dumped lines, or the
module-not-active report when `dump_module_state` raised. -/
def moduleChunk (oracles : Nat → Oracle) (mod_no : Nat) : List String :=
  match dump_module_state (oracles mod_no) mod_no with
  | .ok ls => ls
  | .error _ => [notActiveLine mod_no]

/-- Embedded from `_dump_state.py` (`dump_state`): prints the DLL mode (this
initial query is not guarded), then for each requested module a blank line
followed by that module dump, downgrading an escalated `SPCMError` to the
not-active report and continuing with the remaining modules. -/
def dump_state (getMode : Except SPCMError DLLOperationMode)
    (oracles : Nat → Oracle) (mod_nos : List Nat) :
    Except SPCMError (List String) :=
  match getMode with
  | .error e => .error e
  | .ok m =>
    .ok (m.render ::
      (mod_nos.map (fun i => "" :: moduleChunk oracles i)).flatten)

/-- Claim C5: after identification succeeds, a failure of any individual
status query is caught and reported as inline text without aborting the
remaining queries (the dump still returns lines, each failing query
contributes its inline failure line, and the parameters section still
appears); only a `NOT_ACTIVE` failure of `test_id` is escalated (any other
`test_id` failure is reported, not raised); and `dump_state` catches the
escalation, reports the module as not active, and continues with the
remaining requested modules (all lines of the next module dump appear). -/
theorem dump_state_error_flow (o : Oracle) (n : Nat) :
    (∀ mt, o.test_id = .ok mt →
      ∃ ls, dump_module_state o n = .ok ls ∧
        (∀ e, o.get_init_status = .error e →
          ("  " ++ ("get_init_status() failed: " ++ e.text)) ∈ ls) ∧
        (∀ e, o.get_module_info = .error e →
          ("  get_module_info() failed: " ++ e.text) ∈ ls) ∧
        (∀ e, o.get_eeprom_data = .error e →
          ("  get_eeprom_data() failed: " ++ e.text) ∈ ls) ∧
        (∀ e, o.get_version = .error e →
          ("  get_version() failed: " ++ e.text) ∈ ls) ∧
        (∀ e, o.test_state = .error e →
          ("  test_state() failed: " ++ e.text) ∈ ls) ∧
        (∀ e, o.get_sync_state = .error e →
          ("  get_sync_state() failed: " ++ e.text) ∈ ls) ∧
        (∀ e, o.get_parameters = .error e →
          ("  get_parameters() failed: " ++ e.text) ∈ ls) ∧
        (∀ d, o.get_parameters = .ok d → "  Parameters:" ∈ ls)) ∧
    (∀ e, o.test_id = .error e →
      (e.enum = ErrorEnum.NOT_ACTIVE → dump_module_state o n = .error e) ∧
      (e.enum ≠ ErrorEnum.NOT_ACTIVE →
        dump_module_state o n = .ok [testIdFailLine n e])) ∧
    (∀ (m : DLLOperationMode) (os : Nat → Oracle) (i j : Nat)
        (e : SPCMError) (ls_j : List String),
      dump_module_state (os i) i = .error e →
      dump_module_state (os j) j = .ok ls_j →
      ∃ ls, dump_state (.ok m) os [i, j] = .ok ls ∧
        notActiveLine i ∈ ls ∧ ∀ x ∈ ls_j, x ∈ ls) := by
  refine ⟨?_, ?_, ?_⟩
  · intro mt hmt
    refine ⟨_, by rw [dump_module_state, hmt], ?_, ?_, ?_, ?_, ?_, ?_, ?_, ?_⟩
    · intro e he
      have : renderInitStatusOrError (initStatusOf o) =
          "get_init_status() failed: " ++ e.text := by
        rw [initStatusOf, he, renderInitStatusOrError]
      rw [this]
      simp
    · intro e he
      have : infoLines o mt = ["  get_module_info() failed: " ++ e.text] := by
        rw [infoLines, he]
      simp [this]
    · intro e he
      have : eepLines o = ["  get_eeprom_data() failed: " ++ e.text] := by
        rw [eepLines, he]
      simp [this]
    · intro e he
      have : verLines o = ["  get_version() failed: " ++ e.text] := by
        rw [verLines, he]
      simp [this]
    · intro e he
      have : stateLines o = ["  test_state() failed: " ++ e.text] := by
        rw [stateLines, he]
      simp [this]
    · intro e he
      have : syncLines o = ["  get_sync_state() failed: " ++ e.text] := by
        rw [syncLines, he]
      simp [this]
    · intro e he
      have : paramLines o = ["  get_parameters() failed: " ++ e.text] := by
        rw [paramLines, he]
      simp [this]
    · intro d hd
      have : paramLines o = "  Parameters:" :: textwrap_wrap (paramsText d) := by
        rw [paramLines, hd]
      simp [this]
  · intro e he
    constructor
    · intro hna
      simp [dump_module_state, he, hna]
    · intro hna
      simp [dump_module_state, he, hna]
  · intro m os i j e ls_j hi hj
    have hci : moduleChunk os i = [notActiveLine i] := by
      rw [moduleChunk, hi]
    have hcj : moduleChunk os j = ls_j := by
      rw [moduleChunk, hj]
    refine ⟨_, by rw [dump_state], ?_, ?_⟩
    · simp [hci]
    · intro x hx
      simp [hcj, hx]

/-- An oracle in which identification succeeds but every subsequent query
fails with the invalid-module error (an arbitrary inline failure). -/
def oracleAllFail : Oracle :=
  ⟨.ok .SPC_150, .error modNoError, .error modNoError, .error modNoError,
   .error modNoError, .error modNoError, .error modNoError,
   .error modNoError⟩

/-- An oracle for a module that is not present: `test_id` fails with
`NOT_ACTIVE`. -/
def oracleNotActive : Oracle :=
  ⟨.error notActiveError, .ok .OK, .ok ⟨.SPC_150, 0, 0, .IN_USE_HERE, .OK⟩,
   .ok ⟨"SPC-150", "", "", ⟨0, 0, 0, 0⟩⟩, .ok "0", .ok 0, .ok 0,
   .ok Data.mk0⟩

/-- An oracle in which every query succeeds. -/
def oracleAllOk : Oracle :=
  ⟨.ok .SPC_150, .ok .OK, .ok ⟨.SPC_150, 0, 0, .IN_USE_HERE, .OK⟩,
   .ok ⟨"SPC-150", "", "", ⟨0, 0, 0, 0⟩⟩, .ok "0", .ok 0, .ok 0,
   .ok Data.mk0⟩

/-- Witness for C5: with every status query failing after identification the
dump still returns lines including the inline eeprom failure; a `NOT_ACTIVE`
identification failure escalates; and the two-module dump downgrades the
escalation to the not-active report while still containing the header line
of the healthy module. -/
theorem dump_state_error_flow_witness :
    (∃ ls, dump_module_state oracleAllFail 3 = .ok ls ∧
      ("  get_eeprom_data() failed: " ++ modNoError.text) ∈ ls) ∧
    dump_module_state oracleNotActive 0 = .error notActiveError ∧
    (∃ ls, dump_state (.ok DLLOperationMode.SIMULATE_SPC_150)
        (fun k => if k = 0 then oracleNotActive else oracleAllOk) [0, 1] =
          .ok ls ∧
      notActiveLine 0 ∈ ls ∧ headerLine 1 ModuleType.SPC_150 ∈ ls) := by
  refine ⟨?_, ?_, ?_⟩
  · obtain ⟨ls, hls, _, _, heep, _⟩ :=
      (dump_state_error_flow oracleAllFail 3).1 ModuleType.SPC_150 rfl
    exact ⟨ls, hls, heep modNoError rfl⟩
  · exact ((dump_state_error_flow oracleNotActive 0).2.1 notActiveError
      rfl).1 rfl
  · have hna : dump_module_state oracleNotActive 0 = .error notActiveError :=
      ((dump_state_error_flow oracleNotActive 0).2.1 notActiveError rfl).1 rfl
    obtain ⟨lsj, hlsj, _⟩ :=
      (dump_state_error_flow oracleAllOk 1).1 ModuleType.SPC_150 rfl
    obtain ⟨ls, hls, hmem, hall⟩ :=
      (dump_state_error_flow oracleAllOk 0).2.2
        DLLOperationMode.SIMULATE_SPC_150
        (fun k => if k = 0 then oracleNotActive else oracleAllOk) 0 1
        notActiveError lsj (by simpa using hna) (by simpa using hlsj)
    have hcomp : dump_module_state oracleAllOk 1 =
        .ok (headerLine 1 ModuleType.SPC_150 ::
          ("  " ++ renderInitStatusOrError (initStatusOf oracleAllOk)) ::
          infoLines oracleAllOk ModuleType.SPC_150 ++ eepLines oracleAllOk ++
          verLines oracleAllOk ++ stateLines oracleAllOk ++
          syncLines oracleAllOk ++ paramLines oracleAllOk) := rfl
    rw [hlsj] at hcomp
    have hlsj2 := Except.ok.inj hcomp
    refine ⟨ls, hls, hmem, hall _ ?_⟩
    rw [hlsj2]
    exact List.mem_cons_self _ _

end Pybhspc
